import Mathlib

/-!
Shallow embedding of the jp2k decode pipeline (src/src/lib.rs) and proofs
of its specification claims.

The repository is a thin safe wrapper around the external OpenJPEG engine.
Pure Rust-side logic (parameter builders, ceiling-division dimension
computation, the cursor-backed read callback, the decode orchestration and
planar-to-interleaved packing) is embedded directly.  The external engine
(`opj_setup_decoder`, `opj_codec_set_threads`, `opj_read_header`,
`opj_set_decode_area`, `opj_decode`) is opaque FFI; one decode run observes
only the success/failure of each engine call and the engine-populated image,
so the engine is modelled as a record of those responses (`EngineBehavior`).
Machine integers: `u32`/`usize` values are `Nat`, `i32` sample values are
`Int`; where overflow or wrapping matters it is made explicit.
-/

namespace Jp2k

/-- `x as u8` on an `i32` sample: the low 8 bits, as in the Rust
`*x as u8` truncating casts in `Stream::decode`. -/
def toU8 (x : Int) : Nat := (x % 256).toNat

/-- `(*x as u16).to_ne_bytes()` on an `i32` sample: truncate to the low
16 bits and emit two bytes in native (little-endian on the supported
targets) byte order. -/
def u16NeBytes (x : Int) : List Nat :=
  [(x % 65536).toNat % 256, (x % 65536).toNat / 256]

/-- Mirror of `ffi::COLOR_SPACE` (`OPJ_COLOR_SPACE`). -/
inductive ColorSpace where
  | unknown
  | unspecified
  | srgb
  | gray
  | sycc
  | eycc
  | cmyk
deriving DecidableEq, Repr

/-- Mirror of the private `DecodingArea { x0, y0, x1, y1 }` struct
(fields are `i32`). -/
structure DecodingArea where
  x0 : Int
  y0 : Int
  x1 : Int
  y1 : Int
deriving DecidableEq, Repr

/-- Mirror of `DecodeParams`: the five optional decode options. -/
structure DecodeParams where
  default_color_space : Option ColorSpace := none
  reduce_factor : Option Nat := none
  decoding_area : Option DecodingArea := none
  quality_layers : Option Nat := none
  num_threads : Option Int := none
deriving DecidableEq, Repr

/-- `DecodeParams::with_default_color_space`. -/
def DecodeParams.with_default_color_space (p : DecodeParams)
    (color_space : ColorSpace) : DecodeParams :=
  { p with default_color_space := some color_space }

/-- `DecodeParams::with_reduce_factor`. -/
def DecodeParams.with_reduce_factor (p : DecodeParams)
    (reduce_factor : Nat) : DecodeParams :=
  { p with reduce_factor := some reduce_factor }

/-- `DecodeParams::with_num_threads`. -/
def DecodeParams.with_num_threads (p : DecodeParams) (num : Int) : DecodeParams :=
  { p with num_threads := some num }

/-- `DecodeParams::with_decoding_area`. -/
def DecodeParams.with_decoding_area (p : DecodeParams)
    (x0 y0 x1 y1 : Int) : DecodeParams :=
  { p with decoding_area := some { x0, y0, x1, y1 } }

/-- `DecodeParams::with_quality_layers`. -/
def DecodeParams.with_quality_layers (p : DecodeParams)
    (quality_layers : Nat) : DecodeParams :=
  { p with quality_layers := some quality_layers }

/-- `DecodeParams::value_for_discard_level`: `u` and `discard_level` are
`u32`.  `let div = 1 << discard_level` is a `u32` shift, which masks the
shift amount modulo 32 in release builds; for `discard_level < 32` no
wrapping occurs anywhere in the function. -/
def DecodeParams.value_for_discard_level (u discard_level : Nat) : Nat :=
  let div := 1 <<< (discard_level % 32)
  let quot := u / div
  let rem := u % div
  if rem > 0 then quot + 1 else quot

/-- Mirror of `ffi::opj_image_comp_t` as used by `Stream::decode`:
sample precision `prec` (`u32`), applied resolution-reduction `factor`
(`u32`), and the component's decoded sample plane `data` (`*mut i32`,
modelled as the list of `i32` samples the plane holds). -/
structure OpjImageComp where
  prec : Nat
  factor : Nat
  data : List Int
deriving DecidableEq, Repr

/-- Mirror of `ffi::opj_image_t` as used by `Stream::decode` and the
`Image` accessors: intrinsic bounds (`u32`) and the component array. -/
structure OpjImage where
  x0 : Nat
  y0 : Nat
  x1 : Nat
  y1 : Nat
  comps : List OpjImageComp
deriving DecidableEq, Repr

/-- `Image::width`: `x1 - x0` in `u32` (the engine guarantees
`x0 <= x1`, so `Nat` truncated subtraction agrees). -/
def OpjImage.width (img : OpjImage) : Nat := img.x1 - img.x0

/-- `Image::height`: `y1 - y0` in `u32`. -/
def OpjImage.height (img : OpjImage) : Nat := img.y1 - img.y0

/-- `Image::factor`: the applied resolution-reduction factor, read from
the first component (`(*(*self.0).comps).factor`).  The engine always
populates at least one component on a successful decode. -/
def OpjImage.factor (img : OpjImage) : Nat :=
  (img.comps.headD { prec := 0, factor := 0, data := [] }).factor

/-- The errors `Stream::decode` can produce (each `err::Error::boxed`
call site, tagged by its message). -/
inductive DecodeError where
  | decoderSetupFailed
  | threadConfigFailed
  | headerReadFailed
  | decodeAreaFailed
  | decodeFailed
  | unsupportedGrayPrecision (prec : Nat)
  | unsupportedRgbPrecision (prec : Nat)
  | unsupportedRgbaPrecision (prec : Nat)
  | unsupportedComponents
deriving DecidableEq, Repr

/-- The subset of `opj_dparameters` that `Stream::decode` fills in from
`DecodeParams` before calling `opj_setup_decoder` (the remaining fields
keep the engine defaults). -/
structure InnerDecodeParams where
  cp_reduce : Nat := 0
  cp_layer : Nat := 0
deriving DecidableEq, Repr

/-- The external engine's observable responses during one decode run:
the success of each FFI call and the image it populates.  `Stream::decode`
is a pure function of its `DecodeParams` and of these responses; one fixed
`EngineBehavior` value records the responses of one run. -/
structure EngineBehavior where
  setupOk : Bool
  setThreadsOk : Bool
  headerOk : Bool
  setAreaOk : Bool
  decodeOk : Bool
  img : OpjImage
deriving DecidableEq, Repr

/-- Mirror of the public `ImageBuffer` output struct (`buffer` is the
interleaved byte vector). -/
structure ImageBuffer where
  buffer : List Nat
  width : Nat
  height : Nat
  num_bands : Nat
  precision : Nat
deriving DecidableEq, Repr

/-- `Stream::decode` (src/src/lib.rs lines 195-341).  The FFI calls are
replaced by the recorded `EngineBehavior` responses; everything else is
the Rust control flow verbatim: parameter transfer, the five staged
engine calls with early error returns, dimension computation through
`value_for_discard_level` on the applied factor, and the per-layout band
packing.  Each slice length `(width * height) as usize` is a `u32`
product that wraps in release builds before widening to `usize`, so
`from_raw_parts(comp.data, (width*height) as usize)` becomes
`comp.data.take ((width * height) % 4294967296)`. -/
def decode (params : DecodeParams) (eng : EngineBehavior) :
    Except DecodeError ImageBuffer :=
  let _inner : InnerDecodeParams :=
    { cp_reduce := params.reduce_factor.getD 0,
      cp_layer := params.quality_layers.getD 0 }
  if !eng.setupOk then .error .decoderSetupFailed
  else if params.num_threads.isSome && !eng.setThreadsOk then
    .error .threadConfigFailed
  else if !eng.headerOk then .error .headerReadFailed
  else if params.decoding_area.isSome && !eng.setAreaOk then
    .error .decodeAreaFailed
  else if !eng.decodeOk then .error .decodeFailed
  else
    let img := eng.img
    let factor := img.factor
    let width := DecodeParams.value_for_discard_level img.width factor
    let height := DecodeParams.value_for_discard_level img.height factor
    match img.comps with
    | [comp_r] =>
      if comp_r.prec == 8 then
        .ok { buffer := (comp_r.data.take ((width * height) % 4294967296)).map toU8,
              width := width, height := height, num_bands := 1, precision := 8 }
      else if comp_r.prec == 16 then
        .ok { buffer := (comp_r.data.take ((width * height) % 4294967296)).flatMap u16NeBytes,
              width := width, height := height, num_bands := 1, precision := 16 }
      else .error (.unsupportedGrayPrecision comp_r.prec)
    | [comp_r, comp_g, comp_b] =>
      if comp_r.prec != 8 then .error (.unsupportedRgbPrecision comp_r.prec)
      else
        let r := comp_r.data.take ((width * height) % 4294967296)
        let g := comp_g.data.take ((width * height) % 4294967296)
        let b := comp_b.data.take ((width * height) % 4294967296)
        .ok { buffer := ((r.zip g).zip b).foldl
                (fun acc x => acc ++ [toU8 x.1.1, toU8 x.1.2, toU8 x.2]) [],
              width := width, height := height, num_bands := 3, precision := 8 }
    | [comp_r, comp_g, comp_b, comp_a] =>
      if comp_r.prec != 8 then .error (.unsupportedRgbaPrecision comp_r.prec)
      else
        let r := comp_r.data.take ((width * height) % 4294967296)
        let g := comp_g.data.take ((width * height) % 4294967296)
        let b := comp_b.data.take ((width * height) % 4294967296)
        let a := comp_a.data.take ((width * height) % 4294967296)
        .ok { buffer := (((r.zip g).zip b).zip a).foldl
                (fun acc x =>
                  acc ++ [toU8 x.1.1.1, toU8 x.1.1.2, toU8 x.1.2, toU8 x.2]) [],
              width := width, height := height, num_bands := 4, precision := 8 }
    | _ => .error .unsupportedComponents

/-- The cursor backing a `Stream`: `std::io::Cursor<&[u8]>`, a byte
buffer plus a read position. -/
structure Cursor where
  buf : List Nat
  pos : Nat
deriving DecidableEq, Repr

/-- The in-memory `Stream` that `Stream::from_bytes` builds: an engine
stream whose user data is `Cursor::new(buf)` and whose declared data
length is `buf.len()`. -/
structure Stream where
  cur : Cursor
  len : Nat
deriving DecidableEq, Repr

/-- `Stream::from_bytes`: wraps the byte slice in a cursor at position 0
and registers it with the engine stream.  Its Rust return type is
`err::Result<Stream>` but no branch constructs an error. -/
def Stream.from_bytes (buf : List Nat) : Except DecodeError Stream :=
  .ok { cur := { buf := buf, pos := 0 }, len := buf.length }

/-- `Stream::opj_stream_read_fn`: the engine hands a destination buffer
of `p_nb_bytes` bytes (modelled by its current contents `dst`); the
callback reads from the cursor into it (`Cursor::read` copies
`min(dst.len, remaining)` bytes and advances the position by that count
-- for an in-memory cursor the read never fails, so the
`expect`/abort branch is unreachable) and returns the count read.
Result: (count, destination contents after the copy, cursor after). -/
def opj_stream_read_fn (dst : List Nat) (cur : Cursor) :
    Nat × List Nat × Cursor :=
  let copied := (cur.buf.drop cur.pos).take dst.length
  (copied.length, copied ++ dst.drop copied.length,
   { cur with pos := cur.pos + copied.length })

/-- Ceiling division, written as quotient plus a remainder correction,
equals the usual `(u + D - 1) / D` form. -/
theorem roundUpDiv (D u : Nat) (hD : 0 < D) :
    (if 0 < u % D then u / D + 1 else u / D) = (u + D - 1) / D := by
  rcases Nat.eq_zero_or_pos (u % D) with h | h
  · obtain ⟨q, hq⟩ := Nat.dvd_of_mod_eq_zero h
    subst hq
    rw [if_neg (by omega), Nat.mul_div_cancel_left _ hD]
    have h1 : D * q + D - 1 = D * q + (D - 1) := by omega
    rw [h1, Nat.mul_add_div hD, Nat.div_eq_of_lt (show D - 1 < D by omega)]
    omega
  · rw [if_pos h]
    have hq := Nat.div_add_mod u D
    have hrlt : u % D < D := Nat.mod_lt _ hD
    have h2 : u + D - 1 = D * (u / D + 1) + (u % D - 1) := by
      have hmul : D * (u / D + 1) = D * (u / D) + D := by ring
      omega
    rw [h2, Nat.mul_add_div hD,
      Nat.div_eq_of_lt (show u % D - 1 < D by omega)]

/-- C1: for `discard_level < 32`, `value_for_discard_level u discard_level`
is the ceiling of `u / 2^discard_level`: the truncating quotient, plus one
exactly when the remainder is nonzero. -/
theorem value_for_discard_level_is_ceil (u discard_level : Nat)
    (hu : u < 2 ^ 32) (hd : discard_level < 32) :
    DecodeParams.value_for_discard_level u discard_level
      = u / 2 ^ discard_level
          + (if u % 2 ^ discard_level = 0 then 0 else 1)
    ∧ DecodeParams.value_for_discard_level u discard_level
      = (u + 2 ^ discard_level - 1) / 2 ^ discard_level := by
  have hmod : discard_level % 32 = discard_level := Nat.mod_eq_of_lt hd
  have hshift : (1 : Nat) <<< (discard_level % 32) = 2 ^ discard_level := by
    rw [hmod, Nat.shiftLeft_eq, one_mul]
  have hpow : 0 < 2 ^ discard_level := pow_pos (by norm_num) _
  constructor
  · simp only [DecodeParams.value_for_discard_level, hshift]
    rcases Nat.eq_zero_or_pos (u % 2 ^ discard_level) with h | h
    · rw [if_neg (by omega), if_pos h]
      omega
    · rw [if_pos h, if_neg (by omega)]
  · simp only [DecodeParams.value_for_discard_level, hshift]
    exact roundUpDiv (2 ^ discard_level) u hpow

/-- Witness for C1 at concrete inputs: `513` at discard level `1` yields
`257` and `512` yields `256`, matching the ceiling rule. -/
theorem value_for_discard_level_is_ceil_witness :
    (DecodeParams.value_for_discard_level 513 1
        = 513 / 2 ^ 1 + (if 513 % 2 ^ 1 = 0 then 0 else 1))
    ∧ DecodeParams.value_for_discard_level 513 1 = 257
    ∧ DecodeParams.value_for_discard_level 512 1 = 256 :=
  ⟨(value_for_discard_level_is_ceil 513 1 (by norm_num) (by norm_num)).1,
   by decide, by decide⟩

/-- C8: each `with_*` builder sets exactly its own field (all other
fields are those of the input), and a repeated call to the same builder
overwrites the earlier value (last write wins). -/
theorem with_builders_set_exactly_one_field (p : DecodeParams)
    (cs cs2 : ColorSpace) (rf rf2 : Nat) (nt nt2 : Int)
    (x0 y0 x1 y1 u0 v0 u1 v1 : Int) (ql ql2 : Nat) :
    p.with_default_color_space cs = { p with default_color_space := some cs }
    ∧ p.with_reduce_factor rf = { p with reduce_factor := some rf }
    ∧ p.with_num_threads nt = { p with num_threads := some nt }
    ∧ p.with_decoding_area x0 y0 x1 y1
        = { p with decoding_area := some { x0 := x0, y0 := y0, x1 := x1, y1 := y1 } }
    ∧ p.with_quality_layers ql = { p with quality_layers := some ql }
    ∧ (p.with_default_color_space cs).with_default_color_space cs2
        = p.with_default_color_space cs2
    ∧ (p.with_reduce_factor rf).with_reduce_factor rf2 = p.with_reduce_factor rf2
    ∧ (p.with_num_threads nt).with_num_threads nt2 = p.with_num_threads nt2
    ∧ (p.with_decoding_area x0 y0 x1 y1).with_decoding_area u0 v0 u1 v1
        = p.with_decoding_area u0 v0 u1 v1
    ∧ (p.with_quality_layers ql).with_quality_layers ql2
        = p.with_quality_layers ql2 :=
  ⟨rfl, rfl, rfl, rfl, rfl, rfl, rfl, rfl, rfl, rfl⟩

/-- C10: `Stream::from_bytes` returns `Ok` on every input byte slice,
the empty slice included; the error branch of its result type is never
taken. -/
theorem from_bytes_never_fails (buf : List Nat) :
    Stream.from_bytes buf
        = .ok { cur := { buf := buf, pos := 0 }, len := buf.length }
    ∧ (Stream.from_bytes buf).isOk = true
    ∧ (Stream.from_bytes []).isOk = true :=
  ⟨rfl, rfl, rfl⟩

/-- C7: the read callback copies `min(requested, remaining)` source bytes
into the head of the engine's buffer, advances the cursor by exactly the
returned count, and returns 0 once the source is exhausted. -/
theorem read_fn_reads_min_and_advances (dst : List Nat) (cur : Cursor) :
    (opj_stream_read_fn dst cur).1
        = min dst.length (cur.buf.length - cur.pos)
    ∧ (opj_stream_read_fn dst cur).2.2.pos
        = cur.pos + (opj_stream_read_fn dst cur).1
    ∧ (opj_stream_read_fn dst cur).2.2.buf = cur.buf
    ∧ (opj_stream_read_fn dst cur).2.1.length = dst.length
    ∧ (opj_stream_read_fn dst cur).2.1.take (opj_stream_read_fn dst cur).1
        = (cur.buf.drop cur.pos).take dst.length
    ∧ (cur.buf.length ≤ cur.pos → (opj_stream_read_fn dst cur).1 = 0) := by
  have hlen : ((cur.buf.drop cur.pos).take dst.length).length
      = min dst.length (cur.buf.length - cur.pos) := by
    simp [List.length_take, List.length_drop]
  refine ⟨hlen, rfl, rfl, ?_, ?_, ?_⟩
  · simp only [opj_stream_read_fn, List.length_append, List.length_drop, hlen]
    omega
  · simp only [opj_stream_read_fn]
    exact List.take_left _ _
  · intro hexh
    simp only [opj_stream_read_fn, hlen]
    omega

/-- Witness for C7: on a 5-byte source at position 2 with a 2-byte
destination, 2 bytes are copied and the position advances to 4; on an
exhausted source the callback returns 0. -/
theorem read_fn_reads_min_and_advances_witness :
    (opj_stream_read_fn [0, 0] { buf := [10, 11, 12, 13, 14], pos := 2 })
        = (2, [12, 13], { buf := [10, 11, 12, 13, 14], pos := 4 })
    ∧ (opj_stream_read_fn [9, 9] { buf := [10, 11], pos := 2 }).1 = 0 :=
  ⟨by decide,
   (read_fn_reads_min_and_advances [9, 9] { buf := [10, 11], pos := 2 }).2.2.2.2.2
     (by decide)⟩

/-- C9: `decode` is deterministic: two runs with equal parameters and
equal recorded engine responses either both fail or both succeed with
`ImageBuffer`s equal in every field. -/
theorem decode_deterministic (p1 p2 : DecodeParams) (e1 e2 : EngineBehavior)
    (hp : p1 = p2) (he : e1 = e2) :
    decode p1 e1 = decode p2 e2
    ∧ (∀ b1 b2, decode p1 e1 = .ok b1 → decode p2 e2 = .ok b2 →
        b1.buffer = b2.buffer ∧ b1.width = b2.width ∧ b1.height = b2.height
          ∧ b1.num_bands = b2.num_bands ∧ b1.precision = b2.precision)
    ∧ (∀ err1, decode p1 e1 = .error err1 → decode p2 e2 = .error err1) := by
  subst hp
  subst he
  refine ⟨rfl, ?_, ?_⟩
  · intro b1 b2 h1 h2
    rw [h1] at h2
    injection h2 with h2
    subst h2
    exact ⟨rfl, rfl, rfl, rfl, rfl⟩
  · intro err1 h1
    exact h1

/-- Witness for C9: two runs on one concrete parameter set and engine
behavior agree. -/
theorem decode_deterministic_witness :
    decode { reduce_factor := some 1 }
        { setupOk := true, setThreadsOk := true, headerOk := true,
          setAreaOk := true, decodeOk := true,
          img := { x0 := 0, y0 := 0, x1 := 2, y1 := 2,
                   comps := [{ prec := 8, factor := 0, data := [1, 2, 3, 4] }] } }
      = decode { reduce_factor := some 1 }
        { setupOk := true, setThreadsOk := true, headerOk := true,
          setAreaOk := true, decodeOk := true,
          img := { x0 := 0, y0 := 0, x1 := 2, y1 := 2,
                   comps := [{ prec := 8, factor := 0, data := [1, 2, 3, 4] }] } } :=
  (decode_deterministic _ _ _ _ rfl rfl).1

/-- C2: on every successful decode, the returned width and height are the
ceiling-division rule applied to the image's intrinsic bounds with the
engine-applied factor read back from the first component -- and, holding
the engine's responses fixed, the requested `reduce_factor` plays no part
in the result. -/
theorem decode_dims_from_applied_factor (p : DecodeParams)
    (e : EngineBehavior) (ib : ImageBuffer) (hok : decode p e = .ok ib) :
    ib.width = DecodeParams.value_for_discard_level e.img.width e.img.factor
    ∧ ib.height = DecodeParams.value_for_discard_level e.img.height e.img.factor
    ∧ (∀ rf, decode { p with reduce_factor := rf } e = decode p e) := by
  have hwh : ib.width
        = DecodeParams.value_for_discard_level e.img.width e.img.factor
      ∧ ib.height
        = DecodeParams.value_for_discard_level e.img.height e.img.factor := by
    simp only [decode] at hok
    repeat' split at hok
    all_goals cases hok
    all_goals exact ⟨rfl, rfl⟩
  exact ⟨hwh.1, hwh.2, fun rf => rfl⟩

/-- Witness for C2: a decode whose engine applied factor 1 although the
caller requested factor 0; the output dimension follows the applied
factor (`ceil(3/2) = 2`), not the requested one. -/
theorem decode_dims_from_applied_factor_witness :
    ({ buffer := [1, 2, 3, 4], width := 2, height := 2, num_bands := 1,
       precision := 8 } : ImageBuffer).width
      = DecodeParams.value_for_discard_level
          ({ x0 := 0, y0 := 0, x1 := 3, y1 := 3,
             comps := [{ prec := 8, factor := 1, data := [1, 2, 3, 4] }] }
            : OpjImage).width
          ({ x0 := 0, y0 := 0, x1 := 3, y1 := 3,
             comps := [{ prec := 8, factor := 1, data := [1, 2, 3, 4] }] }
            : OpjImage).factor
    ∧ DecodeParams.value_for_discard_level 3 1 = 2 :=
  ⟨(decode_dims_from_applied_factor { reduce_factor := some 0 }
      { setupOk := true, setThreadsOk := true, headerOk := true,
        setAreaOk := true, decodeOk := true,
        img := { x0 := 0, y0 := 0, x1 := 3, y1 := 3,
                 comps := [{ prec := 8, factor := 1, data := [1, 2, 3, 4] }] } }
      { buffer := [1, 2, 3, 4], width := 2, height := 2, num_bands := 1,
        precision := 8 }
      (by rfl)).1,
   by decide⟩

/-- Counterexample to C4: a 3-component image whose second component has
precision 16 (first and third are 8-bit) decodes successfully -- the
claim says it must fail -- and the 16-bit green sample 300 is silently
truncated to 44 = 300 mod 256. -/
theorem decode_accepts_mixed_nonfirst_precision :
    decode {}
        { setupOk := true, setThreadsOk := true, headerOk := true,
          setAreaOk := true, decodeOk := true,
          img := { x0 := 0, y0 := 0, x1 := 1, y1 := 1,
                   comps := [{ prec := 8, factor := 0, data := [5] },
                             { prec := 16, factor := 0, data := [300] },
                             { prec := 8, factor := 0, data := [7] }] } }
      = .ok { buffer := [5, 44, 7], width := 1, height := 1, num_bands := 3,
              precision := 8 } := by
  rfl

/-- C4 (amended): for 3- and 4-component images `Stream::decode` checks
only the first component's precision: it fails with the
unsupported-precision error exactly when the first component's precision
is not 8, and succeeds (truncating every component's samples to 8 bits)
whenever the first component's precision is 8, regardless of the other
components' precisions. -/
theorem decode_checks_first_component_precision (p : DecodeParams)
    (e : EngineBehavior) (hsu : e.setupOk = true) (hst : e.setThreadsOk = true)
    (hho : e.headerOk = true) (hsa : e.setAreaOk = true)
    (hde : e.decodeOk = true) :
    (∀ r g b, e.img.comps = [r, g, b] → r.prec ≠ 8 →
        decode p e = .error (.unsupportedRgbPrecision r.prec))
    ∧ (∀ r g b a, e.img.comps = [r, g, b, a] → r.prec ≠ 8 →
        decode p e = .error (.unsupportedRgbaPrecision r.prec))
    ∧ (∀ r g b, e.img.comps = [r, g, b] → r.prec = 8 →
        (decode p e).isOk = true)
    ∧ (∀ r g b a, e.img.comps = [r, g, b, a] → r.prec = 8 →
        (decode p e).isOk = true) := by
  refine ⟨?_, ?_, ?_, ?_⟩
  · intro r g b hcomps hr
    simp [decode, hsu, hst, hho, hsa, hde, hcomps, hr]
  · intro r g b a hcomps hr
    simp [decode, hsu, hst, hho, hsa, hde, hcomps, hr]
  · intro r g b hcomps hr
    simp [decode, hsu, hst, hho, hsa, hde, hcomps, hr, Except.isOk, Except.toBool]
  · intro r g b a hcomps hr
    simp [decode, hsu, hst, hho, hsa, hde, hcomps, hr, Except.isOk, Except.toBool]

/-- Witness for C4 (amended): a 3-component image whose first component
has precision 16 is rejected with the RGB unsupported-precision error. -/
theorem decode_checks_first_component_precision_witness :
    decode {}
        { setupOk := true, setThreadsOk := true, headerOk := true,
          setAreaOk := true, decodeOk := true,
          img := { x0 := 0, y0 := 0, x1 := 1, y1 := 1,
                   comps := [{ prec := 16, factor := 0, data := [5] },
                             { prec := 8, factor := 0, data := [6] },
                             { prec := 8, factor := 0, data := [7] }] } }
      = .error (.unsupportedRgbPrecision 16) :=
  (decode_checks_first_component_precision {}
      { setupOk := true, setThreadsOk := true, headerOk := true,
        setAreaOk := true, decodeOk := true,
        img := { x0 := 0, y0 := 0, x1 := 1, y1 := 1,
                 comps := [{ prec := 16, factor := 0, data := [5] },
                           { prec := 8, factor := 0, data := [6] },
                           { prec := 8, factor := 0, data := [7] }] } }
      rfl rfl rfl rfl rfl).1 _ _ _ rfl (by decide)

/-- C5: component counts outside {1,3,4} are rejected with the
unsupported-components error, a single grayscale component with precision
outside {8,16} is rejected with the grayscale unsupported-precision
error, and every successful decode has `num_bands` in {1,3,4}. -/
theorem decode_component_count_support :
    (∀ (p : DecodeParams) (e : EngineBehavior),
        e.setupOk = true → e.setThreadsOk = true → e.headerOk = true →
        e.setAreaOk = true → e.decodeOk = true →
        (e.img.comps.length ≠ 1 → e.img.comps.length ≠ 3 →
          e.img.comps.length ≠ 4 →
          decode p e = .error .unsupportedComponents)
        ∧ (∀ c, e.img.comps = [c] → c.prec ≠ 8 → c.prec ≠ 16 →
            decode p e = .error (.unsupportedGrayPrecision c.prec)))
    ∧ (∀ (p : DecodeParams) (e : EngineBehavior) (ib : ImageBuffer),
        decode p e = .ok ib →
        ib.num_bands = 1 ∨ ib.num_bands = 3 ∨ ib.num_bands = 4) := by
  constructor
  · intro p e hsu hst hho hsa hde
    constructor
    · intro h1 h3 h4
      rcases hc : e.img.comps with _ | ⟨c1, _ | ⟨c2, _ | ⟨c3, _ | ⟨c4, rest⟩⟩⟩⟩
      · simp [decode, hsu, hst, hho, hsa, hde, hc]
      · rw [hc] at h1; simp at h1
      · simp [decode, hsu, hst, hho, hsa, hde, hc]
      · rw [hc] at h3; simp at h3
      · rcases rest with _ | ⟨c5, rest2⟩
        · rw [hc] at h4; simp at h4
        · simp [decode, hsu, hst, hho, hsa, hde, hc]
    · intro c hc h8 h16
      simp [decode, hsu, hst, hho, hsa, hde, hc, h8, h16]
  · intro p e ib hok
    simp only [decode] at hok
    repeat' split at hok
    all_goals cases hok
    all_goals simp

/-- Witness for C5: a 2-component (grayscale+alpha) image is rejected
with the unsupported-components error. -/
theorem decode_component_count_support_witness :
    decode {}
        { setupOk := true, setThreadsOk := true, headerOk := true,
          setAreaOk := true, decodeOk := true,
          img := { x0 := 0, y0 := 0, x1 := 1, y1 := 1,
                   comps := [{ prec := 16, factor := 0, data := [5] },
                             { prec := 16, factor := 0, data := [6] }] } }
      = .error .unsupportedComponents :=
  ((decode_component_count_support.1 {}
      { setupOk := true, setThreadsOk := true, headerOk := true,
        setAreaOk := true, decodeOk := true,
        img := { x0 := 0, y0 := 0, x1 := 1, y1 := 1,
                 comps := [{ prec := 16, factor := 0, data := [5] },
                           { prec := 16, factor := 0, data := [6] }] } }
      rfl rfl rfl rfl rfl).1) (by decide) (by decide) (by decide)

/-- The pipeline stages of `Stream::decode`, in source order. -/
inductive Stage where
  | setup
  | threads
  | header
  | area
  | fullDecode
  | dims
  | pack
deriving DecidableEq, Repr

/-- The stages one run of `Stream::decode` executes: a mirror of
`decode`'s control flow in which each engine call or processing step
records its stage when it starts (so a failing stage is the last one
recorded). -/
def decodeTrace (params : DecodeParams) (eng : EngineBehavior) : List Stage :=
  if !eng.setupOk then [.setup]
  else if params.num_threads.isSome && !eng.setThreadsOk then [.setup, .threads]
  else
    let t1 := [Stage.setup]
        ++ (if params.num_threads.isSome then [Stage.threads] else [])
    if !eng.headerOk then t1 ++ [.header]
    else if params.decoding_area.isSome && !eng.setAreaOk then
      t1 ++ [.header, .area]
    else
      let t2 := t1 ++ [Stage.header]
          ++ (if params.decoding_area.isSome then [Stage.area] else [])
      if !eng.decodeOk then t2 ++ [.fullDecode]
      else t2 ++ [.fullDecode, .dims, .pack]

/-- The full stage list `decode` executes when no stage fails: the two
optional stages appear exactly when their option is present. -/
def expectedStages (params : DecodeParams) : List Stage :=
  [Stage.setup]
    ++ (if params.num_threads.isSome then [Stage.threads] else [])
    ++ [Stage.header]
    ++ (if params.decoding_area.isSome then [Stage.area] else [])
    ++ [Stage.fullDecode, Stage.dims, Stage.pack]

/-- The stage at which each `DecodeError` arises. -/
def stageOfError : DecodeError → Stage
  | .decoderSetupFailed => .setup
  | .threadConfigFailed => .threads
  | .headerReadFailed => .header
  | .decodeAreaFailed => .area
  | .decodeFailed => .fullDecode
  | .unsupportedGrayPrecision _ => .pack
  | .unsupportedRgbPrecision _ => .pack
  | .unsupportedRgbaPrecision _ => .pack
  | .unsupportedComponents => .pack

/-- C6: the stages of one decode run form a prefix of the fixed order
`expectedStages` with no stage repeated; the optional thread and area
stages run only when their option is present; a successful decode runs
every expected stage; a failing decode stops at the failing stage, which
is the last stage recorded and determines the error returned. -/
theorem decode_stage_order (p : DecodeParams) (e : EngineBehavior) :
    decodeTrace p e = (expectedStages p).take (decodeTrace p e).length
    ∧ (decodeTrace p e).Nodup
    ∧ ((decode p e).isOk = true → decodeTrace p e = expectedStages p)
    ∧ (∀ err, decode p e = .error err →
        (decodeTrace p e).getLast? = some (stageOfError err))
    ∧ (Stage.threads ∈ decodeTrace p e → p.num_threads.isSome = true)
    ∧ (Stage.area ∈ decodeTrace p e → p.decoding_area.isSome = true) := by
  cases hsu : e.setupOk <;> cases hnt : p.num_threads.isSome <;>
    cases hst : e.setThreadsOk <;> cases hho : e.headerOk <;>
    cases hda : p.decoding_area.isSome <;> cases hsa : e.setAreaOk <;>
    cases hde : e.decodeOk <;>
    refine ⟨?_, ?_, ?_, ?_, ?_, ?_⟩ <;>
    first
      | (simp [decodeTrace, expectedStages, decode, stageOfError, Except.isOk,
           Except.toBool, hsu, hnt, hst, hho, hda, hsa, hde]
         done)
      | (intro err herr
         simp [decode, hsu, hnt, hst, hho, hda, hsa, hde] at herr
         repeat' split at herr
         all_goals cases herr
         all_goals
           simp [decodeTrace, stageOfError, hsu, hnt, hst, hho, hda, hsa, hde])

/-- Witness for C6: with threads requested, no decode area, and every
engine call succeeding, the run executes exactly
setup, threads, header, full decode, dimension computation, packing. -/
theorem decode_stage_order_witness :
    decodeTrace { num_threads := some 2 }
        { setupOk := true, setThreadsOk := true, headerOk := true,
          setAreaOk := true, decodeOk := true,
          img := { x0 := 0, y0 := 0, x1 := 1, y1 := 1,
                   comps := [{ prec := 8, factor := 0, data := [9] }] } }
      = expectedStages { num_threads := some 2 } :=
  (decode_stage_order { num_threads := some 2 }
      { setupOk := true, setThreadsOk := true, headerOk := true,
        setAreaOk := true, decodeOk := true,
        img := { x0 := 0, y0 := 0, x1 := 1, y1 := 1,
                 comps := [{ prec := 8, factor := 0, data := [9] }] } }).2.2.1
    (by rfl)

end Jp2k
